import Mathlib

/-!
Shallow embedding of `core/bin/zksync_api/src/api_server/rest/v02/error.rs`:
the error-classification layer of the zkSync v0.2 REST API.  The Rust file
defines a closed numeric code registry (`ErrorCode`), the wire envelope
(`Error`), the `ApiError` trait with a generic `From<T: ApiError>` conversion,
the built-in error kinds (`UnreachableError`, `InvalidDataError`,
`StorageError`, `CoreApiError`) and `ApiError` implementations for the two
externally-owned taxonomies `SubmitError` and `PriceError`.

Rust `impl Display` arguments (`impl Display` parameters and the payloads of
the external taxonomies) are modelled as the `String` their `to_string` /
`Display` rendering produces; the `error_type` and `code` operations never
inspect those payloads.
-/

namespace ZkSyncApiV02

/-- The closed numeric code registry, `enum ErrorCode` (error.rs lines 14-37),
a `#[repr(u16)]` enum with explicit discriminants. -/
inductive ErrorCode where
  | UnreacheableError
  | CoreApiError
  | TokenZeroPriceError
  | InvalidCurrency
  | InvalidBlockPosition
  | InvalidAccountIdOrAddress
  | AccountNotFound
  | TransactionNotFound
  | StorageError
  | TokenNotFound
  | ExternalApiError
  | InternalError
  | AccountCloseDisabled
  | InvalidParams
  | UnsupportedFastProcessing
  | IncorrectTx
  | TxAddError
  | InappropriateFeeToken
  | CommunicationCoreServer
  | Other
  deriving DecidableEq, Fintype, Repr

/-- The `#[repr(u16)]` discriminant of each `ErrorCode` value, exactly the
numeric literals written in error.rs lines 17-36. -/
def ErrorCode.toNat : ErrorCode → Nat
  | .UnreacheableError => 0
  | .CoreApiError => 100
  | .TokenZeroPriceError => 200
  | .InvalidCurrency => 201
  | .InvalidBlockPosition => 202
  | .InvalidAccountIdOrAddress => 203
  | .AccountNotFound => 204
  | .TransactionNotFound => 205
  | .StorageError => 300
  | .TokenNotFound => 500
  | .ExternalApiError => 501
  | .InternalError => 600
  | .AccountCloseDisabled => 601
  | .InvalidParams => 602
  | .UnsupportedFastProcessing => 603
  | .IncorrectTx => 604
  | .TxAddError => 605
  | .InappropriateFeeToken => 606
  | .CommunicationCoreServer => 607
  | .Other => 60000

/-- Enumeration of all twenty `ErrorCode` constructors, in source order. -/
def ErrorCode.all : List ErrorCode :=
  [.UnreacheableError, .CoreApiError, .TokenZeroPriceError, .InvalidCurrency,
   .InvalidBlockPosition, .InvalidAccountIdOrAddress, .AccountNotFound,
   .TransactionNotFound, .StorageError, .TokenNotFound, .ExternalApiError,
   .InternalError, .AccountCloseDisabled, .InvalidParams,
   .UnsupportedFastProcessing, .IncorrectTx, .TxAddError,
   .InappropriateFeeToken, .CommunicationCoreServer, .Other]

/-- The wire envelope, `pub struct Error` (error.rs lines 40-45): the error
object placed in an API response, with serialized field names
`error_type`, `code`, `message`. -/
structure Error where
  error_type : String
  code : ErrorCode
  message : String
  deriving DecidableEq, Repr

/-- The `ApiError` trait (error.rs lines 48-56), embedded as an explicit
dictionary.  `toString` models the `Display` supertrait bound
(`ApiError: std::fmt::Display`); `message` has the trait's default body
`self.to_string()`, which none of the implementations in error.rs override. -/
structure ApiError (α : Type) where
  toString : α → String
  error_type : α → String
  code : α → ErrorCode
  message : α → String := toString

/-- The generic conversion `impl<T: ApiError> From<T> for Error`
(error.rs lines 58-69): builds the envelope by calling `error_type`,
`code`, `message` in that order. -/
def Error.fromApiError {α : Type} (inst : ApiError α) (t : α) : Error :=
  { error_type := inst.error_type t
    code := inst.code t
    message := inst.message t }

/-- The sentinel kind `pub struct UnreachableError` (error.rs line 82),
a unit struct. -/
structure UnreachableError where
  deriving DecidableEq, Repr

/-- The `Display` impl for `UnreachableError` (error.rs lines 84-91): one
fixed string (the Rust backslash-newline escape joins the two source lines). -/
def UnreachableError.display (_ : UnreachableError) : String :=
  "Unreachable error; you should never see this message, please contact us at https://github.com/matter-labs/zksync with a report"

/-- The `error_type` operation of `impl ApiError for UnreachableError`
(error.rs lines 94-96). -/
def UnreachableError.error_type (_ : UnreachableError) : String :=
  "api_error"

/-- The `code` operation of `impl ApiError for UnreachableError`
(error.rs lines 98-100). -/
def UnreachableError.code (_ : UnreachableError) : ErrorCode :=
  ErrorCode.UnreacheableError

/-- The `impl ApiError for UnreachableError` dictionary (error.rs
lines 93-101); `message` is the trait default. -/
def UnreachableError.apiError : ApiError UnreachableError :=
  { toString := UnreachableError.display
    error_type := UnreachableError.error_type
    code := UnreachableError.code }

/-- The validation kind `enum InvalidDataError` (error.rs lines 103-117):
six payload-free variants, in source order. -/
inductive InvalidDataError where
  | TokenZeroPriceError
  | InvalidBlockPosition
  | InvalidAccountIdOrAddress
  | AccountNotFound
  | InvalidCurrency
  | TransactionNotFound
  deriving DecidableEq, Fintype, Repr

/-- The `thiserror`-derived `Display` impl for `InvalidDataError`: the
`#[error("...")]` literal attached to each variant (error.rs lines 105-116). -/
def InvalidDataError.display : InvalidDataError → String
  | .TokenZeroPriceError => "Cannot show price in zero price token"
  | .InvalidBlockPosition => "Cannot parse block position. There are only block_number, last_committed, last_finalized options"
  | .InvalidAccountIdOrAddress => "Cannot parse account id or address"
  | .AccountNotFound => "Account is not found"
  | .InvalidCurrency => "Cannot parse currency. There are only token_id, usd options"
  | .TransactionNotFound => "Transaction is not found"

/-- The `error_type` operation of `impl ApiError for InvalidDataError`
(error.rs lines 120-122). -/
def InvalidDataError.error_type (_ : InvalidDataError) : String :=
  "invalid_data_error"

/-- The `code` operation of `impl ApiError for InvalidDataError`
(error.rs lines 124-133): the exhaustive match from variant to
`ErrorCode` value. -/
def InvalidDataError.code : InvalidDataError → ErrorCode
  | .TokenZeroPriceError => ErrorCode.TokenZeroPriceError
  | .InvalidBlockPosition => ErrorCode.InvalidBlockPosition
  | .InvalidAccountIdOrAddress => ErrorCode.InvalidAccountIdOrAddress
  | .AccountNotFound => ErrorCode.AccountNotFound
  | .InvalidCurrency => ErrorCode.InvalidCurrency
  | .TransactionNotFound => ErrorCode.TransactionNotFound

/-- The `impl ApiError for InvalidDataError` dictionary (error.rs
lines 119-134); `message` is the trait default. -/
def InvalidDataError.apiError : ApiError InvalidDataError :=
  { toString := InvalidDataError.display
    error_type := InvalidDataError.error_type
    code := InvalidDataError.code }

/-- Enumeration of all six `InvalidDataError` variants, in source order. -/
def InvalidDataError.all : List InvalidDataError :=
  [.TokenZeroPriceError, .InvalidBlockPosition, .InvalidAccountIdOrAddress,
   .AccountNotFound, .InvalidCurrency, .TransactionNotFound]

/-- The storage wrapper `pub struct StorageError(String)` (error.rs
line 137): a newtype over the wrapped text. -/
structure StorageError where
  text : String
  deriving DecidableEq, Repr

/-- The constructor `StorageError::new(title: impl Display)` (error.rs
lines 140-142); the `impl Display` argument is modelled as the `String`
its `to_string` produces. -/
def StorageError.new (title : String) : StorageError :=
  ⟨title⟩

/-- The `Display` impl for `StorageError` (error.rs lines 145-149): writes
the wrapped text. -/
def StorageError.display (e : StorageError) : String :=
  e.text

/-- The `error_type` operation of `impl ApiError for StorageError`
(error.rs lines 152-154). -/
def StorageError.error_type (_ : StorageError) : String :=
  "storage_error"

/-- The `code` operation of `impl ApiError for StorageError`
(error.rs lines 156-158). -/
def StorageError.code (_ : StorageError) : ErrorCode :=
  ErrorCode.StorageError

/-- The `impl ApiError for StorageError` dictionary (error.rs
lines 151-159); `message` is the trait default. -/
def StorageError.apiError : ApiError StorageError :=
  { toString := StorageError.display
    error_type := StorageError.error_type
    code := StorageError.code }

/-- The upstream-API wrapper `pub struct CoreApiError(String)` (error.rs
line 162). -/
structure CoreApiError where
  text : String
  deriving DecidableEq, Repr

/-- The constructor `CoreApiError::new(title: impl Display)` (error.rs
lines 164-167). -/
def CoreApiError.new (title : String) : CoreApiError :=
  ⟨title⟩

/-- The `Display` impl for `CoreApiError` (error.rs lines 170-174). -/
def CoreApiError.display (e : CoreApiError) : String :=
  e.text

/-- The `error_type` operation of `impl ApiError for CoreApiError`
(error.rs lines 177-179). -/
def CoreApiError.error_type (_ : CoreApiError) : String :=
  "core_api_error"

/-- The `code` operation of `impl ApiError for CoreApiError`
(error.rs lines 181-183). -/
def CoreApiError.code (_ : CoreApiError) : ErrorCode :=
  ErrorCode.CoreApiError

/-- The `impl ApiError for CoreApiError` dictionary (error.rs
lines 176-184); `message` is the trait default. -/
def CoreApiError.apiError : ApiError CoreApiError :=
  { toString := CoreApiError.display
    error_type := CoreApiError.error_type
    code := CoreApiError.code }

/-- The convenience constructor `Error::storage` (error.rs lines 72-74):
`Error::from(StorageError::new(err))`. -/
def Error.storage (err : String) : Error :=
  Error.fromApiError StorageError.apiError (StorageError.new err)

/-- The convenience constructor `Error::core_api` (error.rs lines 76-78):
`Error::from(CoreApiError::new(err))`. -/
def Error.core_api (err : String) : Error :=
  Error.fromApiError CoreApiError.apiError (CoreApiError.new err)

/-- The externally-owned taxonomy `SubmitError` (declared in
`api_server/tx_sender`, outside this file): the nine variants matched by
`impl ApiError for SubmitError` (error.rs lines 192-202).  The payload of
each payload-carrying variant is modelled as the `String` its `Display`
rendering produces; the match in error.rs binds every payload with `_`,
so `error_type` and `code` never inspect it. -/
inductive SubmitError where
  | AccountCloseDisabled
  | InvalidParams (detail : String)
  | UnsupportedFastProcessing
  | IncorrectTx (detail : String)
  | TxAdd (detail : String)
  | InappropriateFeeToken
  | CommunicationCoreServer (detail : String)
  | Internal (detail : String)
  | Other (detail : String)
  deriving DecidableEq, Repr

/-- The `error_type` operation of `impl ApiError for SubmitError`
(error.rs lines 187-189). -/
def SubmitError.error_type (_ : SubmitError) : String :=
  "submit_error"

/-- The `code` operation of `impl ApiError for SubmitError` (error.rs
lines 191-203): an exhaustive match with no default arm. -/
def SubmitError.code : SubmitError → ErrorCode
  | .AccountCloseDisabled => ErrorCode.AccountCloseDisabled
  | .InvalidParams _ => ErrorCode.InvalidParams
  | .UnsupportedFastProcessing => ErrorCode.UnsupportedFastProcessing
  | .IncorrectTx _ => ErrorCode.IncorrectTx
  | .TxAdd _ => ErrorCode.TxAddError
  | .InappropriateFeeToken => ErrorCode.InappropriateFeeToken
  | .CommunicationCoreServer _ => ErrorCode.CommunicationCoreServer
  | .Internal _ => ErrorCode.InternalError
  | .Other _ => ErrorCode.Other

/-- The `impl ApiError for SubmitError` dictionary (error.rs lines
186-204).  The `Display` impl of `SubmitError` lives in
`api_server/tx_sender`, outside this file, so the dictionary is
parameterized by it; `error_type` and `code` are the ones of error.rs and
do not depend on it. -/
def SubmitError.apiError (display : SubmitError → String) : ApiError SubmitError :=
  { toString := display
    error_type := SubmitError.error_type
    code := SubmitError.code }

/-- One representative per `SubmitError` variant, in source order, with an
empty payload where the variant carries one. -/
def SubmitError.reps : List SubmitError :=
  [.AccountCloseDisabled, .InvalidParams (""), .UnsupportedFastProcessing,
   .IncorrectTx (""), .TxAdd (""), .InappropriateFeeToken,
   .CommunicationCoreServer (""), .Internal (""), .Other ("")]

/-- The externally-owned taxonomy `PriceError` (declared in `fee_ticker`,
outside this file): the three variants matched by `impl ApiError for
PriceError` (error.rs lines 212-216).  Payloads are modelled as the
`String` their `Display` rendering produces; the match binds them with
`_`. -/
inductive PriceError where
  | TokenNotFound (detail : String)
  | ApiError (detail : String)
  | DBError (detail : String)
  deriving DecidableEq, Repr

/-- The `error_type` operation of `impl ApiError for PriceError`
(error.rs lines 207-209). -/
def PriceError.error_type (_ : PriceError) : String :=
  "token_error"

/-- The `code` operation of `impl ApiError for PriceError` (error.rs
lines 211-217): `DBError` is reclassified under `ErrorCode::StorageError`. -/
def PriceError.code : PriceError → ErrorCode
  | .TokenNotFound _ => ErrorCode.TokenNotFound
  | .ApiError _ => ErrorCode.ExternalApiError
  | .DBError _ => ErrorCode.StorageError

/-- The `impl ApiError for PriceError` dictionary (error.rs lines
206-218), parameterized by the `Display` impl of `PriceError`, which
lives in `fee_ticker` outside this file. -/
def PriceError.apiError (display : PriceError → String) : ZkSyncApiV02.ApiError PriceError :=
  { toString := display
    error_type := PriceError.error_type
    code := PriceError.code }

/-- The closed sum of the six Error Kinds that implement `ApiError` in
error.rs: `UnreachableError`, `InvalidDataError`, `StorageError`,
`CoreApiError`, `SubmitError`, `PriceError`. -/
inductive ErrorKind where
  | unreachable : UnreachableError → ErrorKind
  | invalidData : InvalidDataError → ErrorKind
  | storage : StorageError → ErrorKind
  | coreApi : CoreApiError → ErrorKind
  | submit : SubmitError → ErrorKind
  | price : PriceError → ErrorKind
  deriving DecidableEq, Repr

/-- The `code` operation of the kind wrapped in an `ErrorKind`, delegating
to the per-kind `code` of error.rs. -/
def ErrorKind.code : ErrorKind → ErrorCode
  | .unreachable e => UnreachableError.code e
  | .invalidData e => InvalidDataError.code e
  | .storage e => StorageError.code e
  | .coreApi e => CoreApiError.code e
  | .submit e => SubmitError.code e
  | .price e => PriceError.code e

/-- The `error_type` (category tag) operation of the kind wrapped in an
`ErrorKind`, delegating to the per-kind `error_type` of error.rs. -/
def ErrorKind.error_type : ErrorKind → String
  | .unreachable e => UnreachableError.error_type e
  | .invalidData e => InvalidDataError.error_type e
  | .storage e => StorageError.error_type e
  | .coreApi e => CoreApiError.error_type e
  | .submit e => SubmitError.error_type e
  | .price e => PriceError.error_type e

/-- The category tag each non-shared code is produced under, read off the
six `error_type` impls of error.rs; at the one code shared across
categories (`ErrorCode.StorageError`) it returns the tag of the built-in
`StorageError` kind. -/
def categoryOfCode : ErrorCode → String
  | .UnreacheableError => "api_error"
  | .CoreApiError => "core_api_error"
  | .TokenZeroPriceError => "invalid_data_error"
  | .InvalidCurrency => "invalid_data_error"
  | .InvalidBlockPosition => "invalid_data_error"
  | .InvalidAccountIdOrAddress => "invalid_data_error"
  | .AccountNotFound => "invalid_data_error"
  | .TransactionNotFound => "invalid_data_error"
  | .StorageError => "storage_error"
  | .TokenNotFound => "token_error"
  | .ExternalApiError => "token_error"
  | _ => "submit_error"

/-- Away from the shared code `ErrorCode.StorageError`, the category tag of
an `ErrorKind` is a function of its numeric code alone. -/
theorem ErrorKind.error_type_eq_categoryOfCode (k : ErrorKind)
    (h : k.code ≠ ErrorCode.StorageError) :
    k.error_type = categoryOfCode k.code := by
  cases k with
  | unreachable e => rfl
  | invalidData e => cases e <;> rfl
  | storage e => exact absurd rfl h
  | coreApi e => rfl
  | submit e => cases e <;> rfl
  | price e => cases e <;> first | rfl | exact absurd rfl h

/-- C1: the code registry is a fixed injective assignment: the twenty
`ErrorCode` meanings carry exactly the documented numeric literals
(sentinel 0; upstream-core-API 100; the six validation codes 200-205;
storage 300; token/price 500 and 501; submission/internal codes 600-607;
catch-all 60000), the twenty-element enumeration is complete, and no two
distinct meanings share a numeric value. -/
theorem errorCode_registry_injective :
    ErrorCode.UnreacheableError.toNat = 0 ∧
    ErrorCode.CoreApiError.toNat = 100 ∧
    ErrorCode.TokenZeroPriceError.toNat = 200 ∧
    ErrorCode.InvalidCurrency.toNat = 201 ∧
    ErrorCode.InvalidBlockPosition.toNat = 202 ∧
    ErrorCode.InvalidAccountIdOrAddress.toNat = 203 ∧
    ErrorCode.AccountNotFound.toNat = 204 ∧
    ErrorCode.TransactionNotFound.toNat = 205 ∧
    ErrorCode.StorageError.toNat = 300 ∧
    ErrorCode.TokenNotFound.toNat = 500 ∧
    ErrorCode.ExternalApiError.toNat = 501 ∧
    ErrorCode.InternalError.toNat = 600 ∧
    ErrorCode.AccountCloseDisabled.toNat = 601 ∧
    ErrorCode.InvalidParams.toNat = 602 ∧
    ErrorCode.UnsupportedFastProcessing.toNat = 603 ∧
    ErrorCode.IncorrectTx.toNat = 604 ∧
    ErrorCode.TxAddError.toNat = 605 ∧
    ErrorCode.InappropriateFeeToken.toNat = 606 ∧
    ErrorCode.CommunicationCoreServer.toNat = 607 ∧
    ErrorCode.Other.toNat = 60000 ∧
    (∀ c : ErrorCode, c ∈ ErrorCode.all) ∧
    (ErrorCode.all.map ErrorCode.toNat).Nodup := by
  decide

/-- C2 (corrected): away from the one deliberately shared code
(`ErrorCode.StorageError`, 300), equal `code()` results force equal
`category()` results across any two Error Kind values of the six kinds. -/
theorem code_determines_category_off_storage (k1 k2 : ErrorKind)
    (h : k1.code = k2.code) (h300 : k1.code ≠ ErrorCode.StorageError) :
    k1.error_type = k2.error_type := by
  rw [ErrorKind.error_type_eq_categoryOfCode k1 h300,
    ErrorKind.error_type_eq_categoryOfCode k2 (h ▸ h300), h]

/-- Witness for C2 at two concrete `CoreApiError`-kind values sharing
code 100. -/
theorem code_determines_category_off_storage_witness :
    (ErrorKind.coreApi (CoreApiError.new ("a"))).error_type =
      (ErrorKind.coreApi (CoreApiError.new ("b"))).error_type :=
  code_determines_category_off_storage
    (ErrorKind.coreApi (CoreApiError.new ("a")))
    (ErrorKind.coreApi (CoreApiError.new ("b"))) rfl (by decide)

/-- Counterexample to C2 as stated: the built-in `StorageError` and
`PriceError::DBError` have equal `code()` results (both
`ErrorCode.StorageError`, 300) but distinct category tags
(`storage_error` versus `token_error`). -/
theorem code_determines_category_counterexample :
    (ErrorKind.storage (StorageError.new ("x"))).code =
      (ErrorKind.price (PriceError.DBError ("y"))).code ∧
    (ErrorKind.storage (StorageError.new ("x"))).error_type ≠
      (ErrorKind.price (PriceError.DBError ("y"))).error_type := by
  exact ⟨rfl, by decide⟩

/-- C3: every one of the nine `SubmitError` variants converts to an
envelope with category tag `submit_error` and the documented code
(account-close disabled 601, invalid parameters 602, unsupported fast
processing 603, malformed transaction 604, queue-add failure 605,
inappropriate fee token 606, core-server communication failure 607,
unclassified internal 600, generic fallback 60000); the nine codes are
pairwise distinct and the total match covers all nine variants, whatever
the (externally defined) `Display` impl is. -/
theorem submitError_envelope (display : SubmitError → String) :
    (∀ e : SubmitError,
      (Error.fromApiError (SubmitError.apiError display) e).error_type = "submit_error") ∧
    (Error.fromApiError (SubmitError.apiError display) .AccountCloseDisabled).code.toNat = 601 ∧
    (∀ s, (Error.fromApiError (SubmitError.apiError display) (.InvalidParams s)).code.toNat = 602) ∧
    (Error.fromApiError (SubmitError.apiError display) .UnsupportedFastProcessing).code.toNat = 603 ∧
    (∀ s, (Error.fromApiError (SubmitError.apiError display) (.IncorrectTx s)).code.toNat = 604) ∧
    (∀ s, (Error.fromApiError (SubmitError.apiError display) (.TxAdd s)).code.toNat = 605) ∧
    (Error.fromApiError (SubmitError.apiError display) .InappropriateFeeToken).code.toNat = 606 ∧
    (∀ s, (Error.fromApiError (SubmitError.apiError display) (.CommunicationCoreServer s)).code.toNat = 607) ∧
    (∀ s, (Error.fromApiError (SubmitError.apiError display) (.Internal s)).code.toNat = 600) ∧
    (∀ s, (Error.fromApiError (SubmitError.apiError display) (.Other s)).code.toNat = 60000) ∧
    (SubmitError.reps.map SubmitError.code).Nodup := by
  refine ⟨fun e => ?_, rfl, fun s => rfl, rfl, fun s => rfl, fun s => rfl, rfl,
    fun s => rfl, fun s => rfl, fun s => rfl, by decide⟩
  cases e <;> rfl

/-- C4: every one of the three `PriceError` variants converts to an
envelope with category tag `token_error`; token-not-found maps to
code 500, external-pricing-API failure to 501, and the database-failure
variant's code equals `StorageError`'s code, namely 300 — whatever the
(externally defined) `Display` impl is. -/
theorem priceError_envelope (display : PriceError → String) :
    (∀ e : PriceError,
      (Error.fromApiError (PriceError.apiError display) e).error_type = "token_error") ∧
    (∀ s, (Error.fromApiError (PriceError.apiError display) (.TokenNotFound s)).code.toNat = 500) ∧
    (∀ s, (Error.fromApiError (PriceError.apiError display) (.ApiError s)).code.toNat = 501) ∧
    (∀ s t, (Error.fromApiError (PriceError.apiError display) (.DBError s)).code =
      StorageError.code (StorageError.new t)) ∧
    (∀ s, (Error.fromApiError (PriceError.apiError display) (.DBError s)).code.toNat = 300) := by
  exact ⟨fun e => by cases e <;> rfl, fun s => rfl, fun s => rfl,
    fun s t => rfl, fun s => rfl⟩

/-- C5: every one of the six `InvalidDataError` variants has category tag
`invalid_data_error`, a code among the six distinct values 200-205
(zero-price 200, currency 201, block position 202, account id/address 203,
account not found 204, transaction not found 205), and a fixed constant
message determined by the variant alone — the variants carry no payload,
so no input value can be incorporated. -/
theorem invalidDataError_contract :
    (∀ e : InvalidDataError,
      InvalidDataError.apiError.error_type e = "invalid_data_error") ∧
    (InvalidDataError.apiError.code .TokenZeroPriceError).toNat = 200 ∧
    (InvalidDataError.apiError.code .InvalidCurrency).toNat = 201 ∧
    (InvalidDataError.apiError.code .InvalidBlockPosition).toNat = 202 ∧
    (InvalidDataError.apiError.code .InvalidAccountIdOrAddress).toNat = 203 ∧
    (InvalidDataError.apiError.code .AccountNotFound).toNat = 204 ∧
    (InvalidDataError.apiError.code .TransactionNotFound).toNat = 205 ∧
    (∀ e : InvalidDataError,
      (InvalidDataError.apiError.code e).toNat ∈ ([200, 201, 202, 203, 204, 205] : List Nat)) ∧
    (InvalidDataError.all.map (fun e => (InvalidDataError.code e).toNat)).Nodup ∧
    InvalidDataError.apiError.message .TokenZeroPriceError = "Cannot show price in zero price token" ∧
    InvalidDataError.apiError.message .InvalidBlockPosition = "Cannot parse block position. There are only block_number, last_committed, last_finalized options" ∧
    InvalidDataError.apiError.message .InvalidAccountIdOrAddress = "Cannot parse account id or address" ∧
    InvalidDataError.apiError.message .AccountNotFound = "Account is not found" ∧
    InvalidDataError.apiError.message .InvalidCurrency = "Cannot parse currency. There are only token_id, usd options" ∧
    InvalidDataError.apiError.message .TransactionNotFound = "Transaction is not found" := by
  decide

/-- C6: the generic conversion `From<T: ApiError> for Error` is a total
pure function, and the three fields of the envelope it returns are
exactly the results of the value's `error_type()` (category), `code()` and
`message()` operations, for every dictionary and every value. -/
theorem fromApiError_fields {α : Type} (inst : ApiError α) (t : α) :
    (Error.fromApiError inst t).error_type = inst.error_type t ∧
    (Error.fromApiError inst t).code = inst.code t ∧
    (Error.fromApiError inst t).message = inst.message t :=
  ⟨rfl, rfl, rfl⟩

/-- C7: for every input text, `Error::storage` builds the envelope
`{error_type: storage_error, code: 300, message: the text}` and
`Error::core_api` builds `{error_type: core_api_error, code: 100,
message: the text}`; in particular at the documented inputs
`"disk full"` and `"timeout"`. -/
theorem convenience_constructors_envelope (s : String) :
    Error.storage s = { error_type := "storage_error", code := ErrorCode.StorageError, message := s } ∧
    (Error.storage s).code.toNat = 300 ∧
    Error.core_api s = { error_type := "core_api_error", code := ErrorCode.CoreApiError, message := s } ∧
    (Error.core_api s).code.toNat = 100 ∧
    Error.storage ("disk full") =
      { error_type := "storage_error", code := ErrorCode.StorageError, message := "disk full" } ∧
    Error.core_api ("timeout") =
      { error_type := "core_api_error", code := ErrorCode.CoreApiError, message := "timeout" } :=
  ⟨rfl, rfl, rfl, rfl, rfl, rfl⟩

/-- C8: converting the sentinel `UnreachableError` always yields code 0
(numerically) with category tag `api_error` and the one fixed message,
which contains the bug-report contact reference
`https://github.com/matter-labs/zksync`, for every value of the (unit)
type. -/
theorem unreachableError_envelope :
    (∀ u : UnreachableError,
      Error.fromApiError UnreachableError.apiError u =
        { error_type := "api_error", code := ErrorCode.UnreacheableError,
          message := "Unreachable error; you should never see this message, please contact us at https://github.com/matter-labs/zksync with a report" }) ∧
    ErrorCode.UnreacheableError.toNat = 0 ∧
    (∃ pre post : String,
      "Unreachable error; you should never see this message, please contact us at https://github.com/matter-labs/zksync with a report" =
        pre ++ "https://github.com/matter-labs/zksync" ++ post) :=
  ⟨fun _ => rfl, rfl,
    ⟨"Unreachable error; you should never see this message, please contact us at ",
      " with a report", by decide⟩⟩

/-- C9: the generic conversion is deterministic at the value level: two
invocations on equal inputs yield envelopes with equal `error_type`,
`code` and `message` fields (classification is a pure function of the
Error Kind value). -/
theorem conversion_deterministic {α : Type} (inst : ApiError α)
    (t1 t2 : α) (h : t1 = t2) :
    (Error.fromApiError inst t1).error_type = (Error.fromApiError inst t2).error_type ∧
    (Error.fromApiError inst t1).code = (Error.fromApiError inst t2).code ∧
    (Error.fromApiError inst t1).message = (Error.fromApiError inst t2).message := by
  subst h
  exact ⟨rfl, rfl, rfl⟩

/-- Witness for C9 at a concrete `StorageError` value. -/
theorem conversion_deterministic_witness :
    (Error.fromApiError StorageError.apiError (StorageError.new ("disk full"))).error_type =
      (Error.fromApiError StorageError.apiError (StorageError.new ("disk full"))).error_type ∧
    (Error.fromApiError StorageError.apiError (StorageError.new ("disk full"))).code =
      (Error.fromApiError StorageError.apiError (StorageError.new ("disk full"))).code ∧
    (Error.fromApiError StorageError.apiError (StorageError.new ("disk full"))).message =
      (Error.fromApiError StorageError.apiError (StorageError.new ("disk full"))).message :=
  conversion_deterministic StorageError.apiError
    (StorageError.new ("disk full")) (StorageError.new ("disk full")) rfl

/-- C10: the convenience constructors go through the single sanctioned
conversion path: `Error::storage` is the generic conversion applied to
`StorageError::new`, and `Error::core_api` is the generic conversion
applied to `CoreApiError::new`, for every input text. -/
theorem convenience_constructors_via_generic (s : String) :
    Error.storage s = Error.fromApiError StorageError.apiError (StorageError.new s) ∧
    Error.core_api s = Error.fromApiError CoreApiError.apiError (CoreApiError.new s) :=
  ⟨rfl, rfl⟩

end ZkSyncApiV02
